import Mathlib

/-!
Verification development for the poc-search-import plugin (POC 6:
search, select and import Zotero items with duplicate detection).

The definitions below are shallow embeddings of the TypeScript source:

* pure helpers (`htmlToMarkdown`, `formatCreator`, `extractYear`,
  `createPageTitle`) are translated directly from `src/index.ts`;
* the existence check of `src/index.ts` (primary property query with a
  title fallback) is embedded with explicit outcomes for the two
  asynchronous host calls (namespace `IndexTs`);
* the import coordinator of the lock-carrying UI variant (the compiled
  variant that owns the `importingItems` set) is embedded as a small-step
  machine whose steps are the synchronous segments between `await`
  suspension points (namespace `LockUi`);
* `searchZoteroItems` is embedded with an oracle for the single network
  fetch it performs.

JavaScript specifics are modelled explicitly: truthiness of an optional
string (`jsTruthy`), `Array.join` (`joinWith`), the word-boundary
semantics of the year regex, and `String.prototype.trim` (restricted to
the whitespace characters that actually occur in the inputs considered
here).
-/

set_option maxHeartbeats 1000000

namespace PocSearchImport

/-! ## Data model (the TypeScript interfaces of src/index.ts) -/

structure ZoteroCreator where
  creatorType : String
  firstName : Option String
  lastName : Option String
  name : Option String
  deriving DecidableEq

structure ZoteroItemData where
  key : String
  version : Nat
  itemType : String
  title : Option String
  creators : Option (List ZoteroCreator)
  date : Option String
  url : Option String
  abstractNote : Option String
  deriving DecidableEq

structure ZoteroItem where
  key : String
  version : Nat
  data : ZoteroItemData
  deriving DecidableEq

/-- JavaScript truthiness of an optional string: `undefined` and the empty
string are falsy, every other string is truthy. -/
def jsTruthy : Option String → Bool
  | none => false
  | some s => s != ""

/-- The string carried by an optional field, defaulting to the empty string. -/
def optStr (o : Option String) : String := o.getD ""

/-- `Array.prototype.join(sep)` on a list of strings. -/
def joinWith (sep : String) : List String → String
  | [] => ""
  | [x] => x
  | x :: y :: xs => x ++ sep ++ joinWith sep (y :: xs)

/-! ## RecordFormatter: formatCreator / authors string (src/index.ts 59-66, 185-190) -/

/-- `formatCreator` from src/index.ts: if `creator.name` is truthy it is
returned unconditionally; otherwise the truthy ones among `firstName` and
`lastName` are pushed and joined with a single space. -/
def formatCreator (c : ZoteroCreator) : String :=
  if jsTruthy c.name then optStr c.name
  else
    joinWith " "
      ((if jsTruthy c.firstName then [optStr c.firstName] else []) ++
       (if jsTruthy c.lastName then [optStr c.lastName] else []))

/-- The author filter used when importing: creators whose `creatorType` is
exactly "author". -/
def authorCreators (creators : List ZoteroCreator) : List ZoteroCreator :=
  creators.filter (fun c => c.creatorType == "author")

/-- The authors string computed inside `importZoteroItem`:
`data.creators ? data.creators.filter(author).map(formatCreator).join(', ') : ''`. -/
def authorsDisplay (creators : Option (List ZoteroCreator)) : String :=
  match creators with
  | none => ""
  | some cs => joinWith ", " ((authorCreators cs).map formatCreator)

/-- The mapping the claim describes, read literally: a creator is shown as
`firstName ++ " " ++ lastName`, except that a provided full name is used
when that is all that is present. -/
def claimedCreatorDisplay (c : ZoteroCreator) : String :=
  if jsTruthy c.name && !(jsTruthy c.firstName) && !(jsTruthy c.lastName) then
    optStr c.name
  else
    optStr c.firstName ++ " " ++ optStr c.lastName

/-- The authors string under the claim's literal reading of the mapping. -/
def claimedAuthorsDisplay (creators : Option (List ZoteroCreator)) : String :=
  match creators with
  | none => ""
  | some cs => joinWith ", " ((authorCreators cs).map claimedCreatorDisplay)

/-- What the code actually does per creator, stated as an explicit case
table: a truthy full name always wins; otherwise the truthy components of
firstName/lastName are joined by a single space, with no stray space when
one of them is missing. -/
def amendedCreatorDisplay (c : ZoteroCreator) : String :=
  if jsTruthy c.name then optStr c.name
  else
    match jsTruthy c.firstName, jsTruthy c.lastName with
    | true, true => optStr c.firstName ++ " " ++ optStr c.lastName
    | true, false => optStr c.firstName
    | false, true => optStr c.lastName
    | false, false => ""

/-! ## RecordFormatter: extractYear (src/index.ts 69-79) -/

/-- A JavaScript word character (the regex class written backslash-w):
ASCII letters, ASCII digits and the underscore. -/
def isWordChar (c : Char) : Bool := c.isAlpha || c.isDigit || c == '_'

/-- Numeric value of the four matched digit characters (what
`parseInt(yearMatch[1])` returns on the captured group). -/
def yearDigitsVal (c1 c2 c3 c4 : Char) : Nat :=
  (c1.toNat - '0'.toNat) * 1000 + (c2.toNat - '0'.toNat) * 100 +
    (c3.toNat - '0'.toNat) * 10 + (c4.toNat - '0'.toNat)

/-- The alternation `19dd|20dd` restricted to its first two characters. -/
def yearHead (c1 c2 : Char) : Bool := (c1 == '1' && c2 == '9') || (c1 == '2' && c2 == '0')

/-- Word-boundary test against the character to the left of the match
(start of string when `none`). The matched text starts with a digit, so
the regex boundary holds exactly when the previous character is not a
word character. -/
def leftBoundary (prev : Option Char) : Bool :=
  match prev with
  | none => true
  | some c => !(isWordChar c)

/-- Word-boundary test against the characters following the match (end of
string when empty). The matched text ends with a digit, so the boundary
holds exactly when the next character is not a word character. -/
def rightBoundary (rest : List Char) : Bool :=
  match rest with
  | [] => true
  | c :: _ => !(isWordChar c)

/-- Left-to-right scan implementing the leftmost match of the regex used
by `extractYear`: word boundary, `19dd|20dd`, word boundary. `prev` is the
character immediately before the current position. -/
def scanYear (prev : Option Char) : List Char → Option Nat
  | c1 :: c2 :: c3 :: c4 :: rest =>
    if leftBoundary prev && yearHead c1 c2 && c3.isDigit && c4.isDigit &&
        rightBoundary rest then
      some (yearDigitsVal c1 c2 c3 c4)
    else
      scanYear (some c1) (c2 :: c3 :: c4 :: rest)
  | _ => none

/-- `extractYear` from src/index.ts: a falsy date string (absent or empty)
gives `null`; otherwise the result of matching the year regex, `null` when
it does not match. -/
def extractYear (dateStr : Option String) : Option Nat :=
  match dateStr with
  | none => none
  | some s => if s = "" then none else scanYear none s.data

/-- Boundary test on the first character of a suffix; an empty suffix (the
end of the string) always counts as a boundary. -/
def boundaryAtHead (boundary : Char → Bool) : List Char → Bool
  | [] => true
  | c :: _ => boundary c

/-- Position-indexed form of the year match, parameterised by the boundary
test applied to the neighbouring characters (positions outside the string
count as boundaries). -/
def yearMatchAt (boundary : Char → Bool) (cs : List Char) (i : Nat) : Bool :=
  (if i = 0 then true else boundary (cs.getD (i - 1) ' ')) &&
  yearHead (cs.getD i ' ') (cs.getD (i + 1) ' ') &&
  (cs.getD (i + 2) ' ').isDigit && (cs.getD (i + 3) ' ').isDigit &&
  boundaryAtHead boundary (cs.drop (i + 4))

/-- Year value read off at position `i`. -/
def yearValueAt (cs : List Char) (i : Nat) : Nat :=
  yearDigitsVal (cs.getD i '0') (cs.getD (i + 1) '0') (cs.getD (i + 2) '0')
    (cs.getD (i + 3) '0')

/-- First position (scanning left to right) at which a year matches, under
the given boundary test, together with its value. -/
def firstYearWith (boundary : Char → Bool) (s : String) : Option Nat :=
  ((List.range s.length).find? (yearMatchAt boundary s.data)).map (yearValueAt s.data)

/-- The claim's literal reading: the first run of exactly 4 digits (a
maximal digit run) of the form `19dd` or `20dd`, anywhere in the string;
the neighbours only have to be non-digits. -/
def yearByDigitRuns (dateStr : Option String) : Option Nat :=
  match dateStr with
  | none => none
  | some s => firstYearWith (fun c => !c.isDigit) s

/-- The amended reading, matching the source regex: the 4-digit run must
additionally not be adjacent to any word character (letter, digit or
underscore), i.e. the two regex word boundaries. -/
def yearByWordBoundaries (dateStr : Option String) : Option Nat :=
  match dateStr with
  | none => none
  | some s => firstYearWith (fun c => !(isWordChar c)) s

/-! ## RecordFormatter: page titles (src/index.ts 82-84, 98-106) -/

/-- `data.title || 'Zotero Item KEY'`: the title when truthy, otherwise the
synthesized placeholder built from the given key. -/
def titleOrPlaceholder (title : Option String) (key : String) : String :=
  if jsTruthy title then optStr title else "Zotero Item " ++ key

/-- `createPageTitle` from src/index.ts: the title (or placeholder from
`data.key`) with the fixed tag suffix appended. -/
def createPageTitle (data : ZoteroItemData) : String :=
  titleOrPlaceholder data.title data.key ++ " #zot"

/-- The page name used by the title-based fallback of `checkIfInGraph` in
src/index.ts: `item.data.title || 'Zotero Item ' + item.key` — the bare
title, without the tag suffix. -/
def fallbackPageName (item : ZoteroItem) : String :=
  titleOrPlaceholder item.data.title item.key

/-! ## RecordFormatter: htmlToMarkdown (src/index.ts 42-56)

The source applies a chain of global regex replacements. Each replacement
is embedded as a left-to-right scan with the JavaScript semantics: at each
occurrence of the opening literal the lazy content group takes the
shortest text (which may not contain a newline, as the dot does not match
newlines) ending at the closing literal; if no valid close exists the scan
resumes after the opening literal. The recursions carry a fuel argument so
that they are structural; every recursive call consumes at least one
character of the suffix being scanned, so the initial fuel of
`length + 1` is never exhausted. -/

/-- Whether `pat` is a prefix of `s`, by direct character comparison. -/
def leadsWith : List Char → List Char → Bool
  | [], _ => true
  | _ :: _, [] => false
  | p :: ps, c :: cs => p == c && leadsWith ps cs

/-- Splits `s` at the first occurrence of `pat`: returns the part strictly
before the occurrence and the part strictly after it. -/
def splitFirst (pat : List Char) : List Char → Option (List Char × List Char)
  | [] => if leadsWith pat [] then some ([], []) else none
  | c :: cs =>
    if leadsWith pat (c :: cs) then some ([], (c :: cs).drop pat.length)
    else
      match splitFirst pat cs with
      | some (a, b) => some (c :: a, b)
      | none => none

/-- Whether `pat` occurs as a contiguous substring of `s`. -/
def occursIn (pat s : String) : Bool := (splitFirst pat.data s.data).isSome

/-- One global replacement of `opn …content… cls` by `wrap content`, with
the JavaScript lazy-dot semantics described above. -/
def replTagF (opn cls : List Char) (wrap : List Char → List Char) :
    Nat → List Char → List Char
  | 0, s => s
  | fuel + 1, s =>
    match splitFirst opn s with
    | none => s
    | some (a, rest) =>
      match splitFirst cls rest with
      | some (content, rest2) =>
        if content.contains '\n' then a ++ opn ++ replTagF opn cls wrap fuel rest
        else a ++ wrap content ++ replTagF opn cls wrap fuel rest2
      | none => a ++ opn ++ replTagF opn cls wrap fuel rest

def replTag (opn cls : List Char) (wrap : List Char → List Char) (s : List Char) :
    List Char := replTagF opn cls wrap (s.length + 1) s

/-- The backtracking of the anchor pattern: successive candidates for the
lazy `href` group end at successive occurrences of the quote-bracket pair;
for each candidate the lazy text group ends at the first close tag not
separated from it by a newline. -/
def findAnchorSplitF (acc : List Char) : Nat → List Char →
    Option (List Char × List Char × List Char)
  | 0, _ => none
  | fuel + 1, rest =>
    match splitFirst ('"' :: '>' :: []) rest with
    | none => none
    | some (u, rest1) =>
      if (acc ++ u).contains '\n' then none
      else
        match splitFirst ('<' :: '/' :: 'a' :: '>' :: []) rest1 with
        | some (text, rest2) =>
          if text.contains '\n' then
            findAnchorSplitF (acc ++ u ++ ('"' :: '>' :: [])) fuel rest1
          else some (acc ++ u, text, rest2)
        | none => findAnchorSplitF (acc ++ u ++ ('"' :: '>' :: [])) fuel rest1

/-- Global replacement of the hyperlink pattern by the markdown link. -/
def replAnchorF : Nat → List Char → List Char
  | 0, s => s
  | fuel + 1, s =>
    match splitFirst "<a href=\"".data s with
    | none => s
    | some (a, rest) =>
      match findAnchorSplitF [] (rest.length + 1) rest with
      | some (url, text, rest2) =>
        a ++ '[' :: text ++ ']' :: '(' :: url ++ ')' :: replAnchorF fuel rest2
      | none => a ++ "<a href=\"".data ++ replAnchorF fuel rest

def replAnchor (s : List Char) : List Char := replAnchorF (s.length + 1) s

/-- JavaScript whitespace as it matters here: the ASCII whitespace
characters together with the no-break space. -/
def isJsWhitespace (c : Char) : Bool :=
  c == ' ' || c == '\t' || c == '\n' || c == '\r' ||
  c == Char.ofNat 11 || c == Char.ofNat 12 || c == Char.ofNat 160

/-- Global replacement of the line-break tag (opening literal, a possibly
empty whitespace run, an optional slash, and the closing bracket) by a
newline. -/
def replBrF : Nat → List Char → List Char
  | 0, s => s
  | fuel + 1, s =>
    match splitFirst ('<' :: 'b' :: 'r' :: []) s with
    | none => s
    | some (a, rest) =>
      match rest.dropWhile isJsWhitespace with
      | '/' :: '>' :: r2 => a ++ '\n' :: replBrF fuel r2
      | '>' :: r2 => a ++ '\n' :: replBrF fuel r2
      | _ => a ++ ('<' :: 'b' :: 'r' :: []) ++ replBrF fuel rest

def replBr (s : List Char) : List Char := replBrF (s.length + 1) s

/-- Global replacement of the opening and closing paragraph tags by a
newline. -/
def replPF : Nat → List Char → List Char
  | 0, s => s
  | _ + 1, [] => []
  | fuel + 1, c :: cs =>
    if leadsWith ('<' :: '/' :: 'p' :: '>' :: []) (c :: cs) then
      '\n' :: replPF fuel ((c :: cs).drop 4)
    else if leadsWith ('<' :: 'p' :: '>' :: []) (c :: cs) then
      '\n' :: replPF fuel ((c :: cs).drop 3)
    else c :: replPF fuel cs

def replP (s : List Char) : List Char := replPF (s.length + 1) s

/-- `String.prototype.trim`, restricted to the whitespace characters
modelled here. -/
def jsTrimList (s : List Char) : List Char :=
  ((s.dropWhile isJsWhitespace).reverse.dropWhile isJsWhitespace).reverse

def jsTrimString (s : String) : String := String.mk (jsTrimList s.data)

/-- `htmlToMarkdown` from src/index.ts: a falsy input gives the empty
string; otherwise the chain of replacements in source order (italic,
emphasis, bold, strong, superscript, subscript, hyperlink, line break,
paragraph) followed by the final trim. -/
def htmlToMarkdown (html : String) : String :=
  if html = "" then ""
  else
    String.mk (jsTrimList (replP (replBr (replAnchor
      (replTag "<sub>".data "</sub>".data (fun c => '~' :: c ++ ('~' :: []))
      (replTag "<sup>".data "</sup>".data (fun c => '^' :: c ++ ('^' :: []))
      (replTag "<strong>".data "</strong>".data (fun c => '*' :: '*' :: c ++ ('*' :: '*' :: []))
      (replTag "<b>".data "</b>".data (fun c => '*' :: '*' :: c ++ ('*' :: '*' :: []))
      (replTag "<em>".data "</em>".data (fun c => '*' :: c ++ ('*' :: []))
      (replTag "<i>".data "</i>".data (fun c => '*' :: c ++ ('*' :: []))
        html.data))))))))))

/-- The opening literals of all patterns the conversion rewrites: a string
containing none of these is untouched by every replacement. -/
def tagMarkers : List String :=
  ["<i>", "<em>", "<b>", "<strong>", "<sup>", "<sub>", "<a href=\"", "<br", "<p>", "</p>"]

/-! ## RecordFetcher: searchZoteroItems (src/index.ts 110-162) -/

/-- Severity of a user-visible notice (the second argument of
`logseq.UI.showMsg`). -/
inductive NoticeKind
  | info
  | success
  | warning
  | error
  deriving DecidableEq

/-- The notices `searchZoteroItems` can show. -/
inductive SearchNotice
  | enterQuery    -- 'Please enter a search query'
  | searching     -- 'Searching for: …'
  | noResults     -- 'No results found'
  | found         -- 'Found N results'
  | cannotConnect -- '❌ Cannot connect to Zotero…'
  | searchFailed  -- '❌ Search error: …'
  deriving DecidableEq

def SearchNotice.kind : SearchNotice → NoticeKind
  | .enterQuery => .warning
  | .searching => .info
  | .noResults => .warning
  | .found => .success
  | .cannotConnect => .error
  | .searchFailed => .error

/-- Outcome of the single network fetch: the connection fails, the store
answers with a non-success status, or it answers with a JSON body (which
the code also guards against being null). -/
inductive FetchOutcome
  | netError
  | httpError (status : Nat)
  | ok (body : Option (List ZoteroItem))
  deriving DecidableEq

/-- Observable result of one `searchZoteroItems` call: how many network
requests were issued, which notices were shown (most recent first), and
the returned list. -/
structure SearchOutcome where
  requests : Nat
  notices : List SearchNotice
  items : List ZoteroItem
  deriving DecidableEq

/-- The guard `!query || query.trim().length === 0`. -/
def isBlankQuery (q : String) : Bool := q == "" || jsTrimString q == ""

/-- `searchZoteroItems` from src/index.ts, with the fetch outcome made
explicit. A blank query returns before the fetch; otherwise exactly one
request is issued and the response is classified as in the source. -/
def searchZoteroItems (fetch : FetchOutcome) (query : String) : SearchOutcome :=
  if isBlankQuery query then ⟨0, [.enterQuery], []⟩
  else
    match fetch with
    | .netError => ⟨1, [.cannotConnect, .searching], []⟩
    | .httpError _ => ⟨1, [.searchFailed, .searching], []⟩
    | .ok none => ⟨1, [.noResults, .searching], []⟩
    | .ok (some items) =>
      if items.isEmpty then ⟨1, [.noResults, .searching], []⟩
      else ⟨1, [.found, .searching], items⟩

namespace IndexTs

/-! ## ExistenceChecker of src/index.ts (lines 87-107)

`checkIfInGraph` first queries the knowledge base for a page carrying the
item's key as its `zoteroKey` property; if that query throws, it falls
back to looking up a page by bare title. The fallback call is not guarded
by any further handler, so an error thrown by it leaves the function. -/

/-- Outcome of the `logseq.DB.q` call: it resolves (possibly to null) or
it throws. -/
inductive QueryOutcome
  | ok (results : Option (List String))
  | throws
  deriving DecidableEq

/-- Outcome of the `logseq.Editor.getPage` call for a given page name. -/
inductive PageOutcome
  | ok (page : Option String)
  | throws
  deriving DecidableEq

/-- `checkIfInGraph` from src/index.ts. `Except.error` means an exception
escaping the function. -/
def checkIfInGraph (dbq : QueryOutcome) (getPage : String → PageOutcome)
    (item : ZoteroItem) : Except Unit Bool :=
  match dbq with
  | .ok results =>
    .ok (match results with
      | some l => decide (0 < l.length)
      | none => false)
  | .throws =>
    match getPage (fallbackPageName item) with
    | .ok page => .ok page.isSome
    | .throws => .error ()

end IndexTs

namespace LockUi

/-! ## ImportCoordinator: the lock-carrying variant

This embeds `importZoteroItem` of the UI variant (the compiled source in
the repository that owns the module-level `importingItems` set, guards on
it before the try block, and releases it in the finally block). The
function is asynchronous; it is embedded as a small-step machine whose
steps are the synchronous segments between its `await` suspension points,
so that two invocations can be interleaved exactly as the host event loop
can interleave them. The knowledge base is part of the shared state:
`pages` holds the keys that have a page carrying that `zoteroKey`
property, and the page-creation effect is applied while the invocation is
suspended on the `createPage` call. -/

/-- The notices this variant's `importZoteroItem` can show. -/
inductive Notice
  | alreadyExists -- warning '⚠️ Item already exists: …'
  | importing     -- info 'Importing: …'
  | imported      -- success '✓ Imported: …'
  | importFailed  -- error '✗ Failed to import: …'
  deriving DecidableEq

def Notice.kind : Notice → NoticeKind
  | .alreadyExists => .warning
  | .importing => .info
  | .imported => .success
  | .importFailed => .error

/-- Console log events of the import path. -/
inductive LogEv
  | guard         -- '[GUARD] Already importing …, aborting'
  | importStart   -- '[IMPORT START] …'
  | importSuccess -- '[IMPORT SUCCESS] …'
  | importError   -- '[IMPORT ERROR] …'
  | importEnd     -- '[IMPORT END] …' (the finally block)
  | linkError     -- '[LINK ERROR]' (caught inside insertLinkToPage)
  deriving DecidableEq

/-- Shared, process-wide state: the lock set, the knowledge base (keys
that have a page), the page-creation requests issued so far, and the
notices and log lines emitted (most recent first). -/
structure KBState where
  importingItems : List String
  pages : List String
  createRequests : List String
  notices : List Notice
  log : List LogEv
  deriving DecidableEq

/-- Resolutions of the asynchronous host calls one invocation performs:
whether `logseq.DB.q` resolves (it is caught to `false` otherwise),
whether `createPage` returns a page handle (vs null), whether
`insertBatchBlock` resolves (vs throws), and whether the link insertion's
internal calls resolve (its failure is caught and only logged). -/
structure ImportOracle where
  queryOk : Bool
  pageCreated : Bool
  insertOk : Bool
  linkOk : Bool
  deriving DecidableEq

inductive ImportResult
  | guarded
  | skipped
  | failed
  | success
  deriving DecidableEq

/-- Program counter of one invocation: which `await` it is suspended on. -/
inductive Phase
  | start
  | awaitCheck
  | awaitCreate
  | awaitInsert
  | awaitLink
  | done (r : ImportResult)
  deriving DecidableEq

/-- `if (data.abstractNote)`: JavaScript truthiness of the abstract. -/
def hasAbstract (item : ZoteroItem) : Bool := jsTruthy item.data.abstractNote

/-- The finally block: `importingItems.delete(item.key)` and the
`[IMPORT END]` log line. -/
def releaseLock (key : String) (s : KBState) : KBState :=
  { s with importingItems := s.importingItems.erase key, log := .importEnd :: s.log }

/-- This variant's `checkIfInGraph`: the property query when it resolves,
`false` when it throws (the catch block returns false directly). -/
def checkResult (o : ImportOracle) (key : String) (s : KBState) : Bool :=
  if o.queryOk then s.pages.contains key else false

/-- One synchronous segment of `importZoteroItem`, from the current
suspension point to the next one (or to return). -/
def importSeg (o : ImportOracle) (item : ZoteroItem) :
    Phase → KBState → Phase × KBState
  | .start, s =>
    if s.importingItems.contains item.key then
      (.done .guarded, { s with log := .guard :: s.log })
    else
      (.awaitCheck,
        { s with importingItems := item.key :: s.importingItems,
                 log := .importStart :: s.log })
  | .awaitCheck, s =>
    if checkResult o item.key s then
      (.done .skipped, releaseLock item.key { s with notices := .alreadyExists :: s.notices })
    else
      (.awaitCreate,
        { s with notices := .importing :: s.notices,
                 createRequests := item.key :: s.createRequests,
                 pages := if o.pageCreated then item.key :: s.pages else s.pages })
  | .awaitCreate, s =>
    if o.pageCreated then
      if hasAbstract item then (.awaitInsert, s)
      else
        (.awaitLink, { s with notices := .imported :: s.notices,
                              log := .importSuccess :: s.log })
    else
      (.done .failed,
        releaseLock item.key
          { s with notices := .importFailed :: s.notices, log := .importError :: s.log })
  | .awaitInsert, s =>
    if o.insertOk then
      (.awaitLink, { s with notices := .imported :: s.notices,
                            log := .importSuccess :: s.log })
    else
      (.done .failed,
        releaseLock item.key
          { s with notices := .importFailed :: s.notices, log := .importError :: s.log })
  | .awaitLink, s =>
    (.done .success,
      releaseLock item.key (if o.linkOk then s else { s with log := .linkError :: s.log }))
  | .done r, s => (.done r, s)

/-- A full run of one `importZoteroItem` invocation without interference:
five segments cover the longest path (guard, check, create, insert,
link); a `done` segment is the identity, so shorter paths are absorbed. -/
def importZoteroItem (o : ImportOracle) (item : ZoteroItem) (s : KBState) :
    Phase × KBState :=
  let p1 := importSeg o item .start s
  let p2 := importSeg o item p1.1 p1.2
  let p3 := importSeg o item p2.1 p2.2
  let p4 := importSeg o item p3.1 p3.2
  importSeg o item p4.1 p4.2

/-- Two interleaved invocations over the shared state. -/
structure TwoState where
  shared : KBState
  ph1 : Phase
  ph2 : Phase
  deriving DecidableEq

/-- Runs the next segment of the chosen invocation (`true` = first). -/
def stepTwo (o1 o2 : ImportOracle) (it1 it2 : ZoteroItem) (t : TwoState)
    (which : Bool) : TwoState :=
  if which then
    { shared := (importSeg o1 it1 t.ph1 t.shared).2,
      ph1 := (importSeg o1 it1 t.ph1 t.shared).1, ph2 := t.ph2 }
  else
    { shared := (importSeg o2 it2 t.ph2 t.shared).2,
      ph1 := t.ph1, ph2 := (importSeg o2 it2 t.ph2 t.shared).1 }

/-- Runs a schedule: at each step the indicated invocation executes its
next synchronous segment (the event loop interleaves only at `await`). -/
def runTwo (o1 o2 : ImportOracle) (it1 it2 : ZoteroItem) (sch : List Bool)
    (t : TwoState) : TwoState :=
  sch.foldl (stepTwo o1 o2 it1 it2) t

/-- The state at plugin load: no lock entries, no pages, nothing logged. -/
def initialKB : KBState := ⟨[], [], [], [], []⟩

def initialTwo : TwoState := ⟨initialKB, .start, .start⟩

/-- Invariant of a run in which only the first invocation (for the record
with key `key`) has stepped, starting from the initial state: the second
invocation has not started, and the first is either not yet started, mid
flight holding the lock (with its single page-creation request issued
exactly when it has passed the existence check), or finished with the
lock released and exactly one request issued. -/
def guardInv (key : String) (t : TwoState) : Prop :=
  t.ph2 = .start ∧
  ((t.ph1 = .start ∧ t.shared = initialKB) ∨
   (t.ph1 = .awaitCheck ∧ t.shared.importingItems = [key] ∧
     t.shared.createRequests = [] ∧ t.shared.pages = []) ∨
   ((t.ph1 = .awaitCreate ∨ t.ph1 = .awaitInsert ∨ t.ph1 = .awaitLink) ∧
     t.shared.importingItems = [key] ∧ t.shared.createRequests = [key]) ∨
   (∃ r, t.ph1 = .done r ∧ t.shared.importingItems = [] ∧
     t.shared.createRequests = [key]))

end LockUi

/-- A concrete item used to instantiate hypotheses of the theorems below. -/
def sampleItem : ZoteroItem :=
  { key := "ABCD2345", version := 1,
    data := { key := "ABCD2345", version := 1, itemType := "journalArticle",
              title := some "Deglobalization", creators := none,
              date := some "2021-05", url := none,
              abstractNote := some "<b>Risk</b>" } }

/-! ## Equivalence of the scanning and the position-indexed year match -/

/-- Variant of `yearMatchAt` that tests the left neighbour of position 0
against an explicit previous character, as the scan does. -/
def yearMatchAtPrev (prev : Option Char) (cs : List Char) (i : Nat) : Bool :=
  (if i = 0 then leftBoundary prev else !(isWordChar (cs.getD (i - 1) ' '))) &&
  yearHead (cs.getD i ' ') (cs.getD (i + 1) ' ') &&
  (cs.getD (i + 2) ' ').isDigit && (cs.getD (i + 3) ' ').isDigit &&
  boundaryAtHead (fun c => !(isWordChar c)) (cs.drop (i + 4))

theorem yearMatchAtPrev_shift (prev : Option Char) (c : Char) (tl : List Char)
    (i : Nat) : yearMatchAtPrev prev (c :: tl) (i + 1) = yearMatchAtPrev (some c) tl i := by
  cases i with
  | zero => simp [yearMatchAtPrev, leftBoundary]
  | succ j => simp [yearMatchAtPrev]

theorem yearValueAt_shift (c : Char) (tl : List Char) (i : Nat) :
    yearValueAt (c :: tl) (i + 1) = yearValueAt tl i := by
  simp [yearValueAt]

theorem yearMatchAtPrev_none (cs : List Char) (i : Nat) :
    yearMatchAtPrev none cs i = yearMatchAt (fun c => !(isWordChar c)) cs i := by
  cases i with
  | zero => simp [yearMatchAtPrev, yearMatchAt, leftBoundary]
  | succ j => simp [yearMatchAtPrev, yearMatchAt]

/-- One unfolding step of the scan: at a non-empty string, either the
pattern matches at position 0 or the scan moves one character right. -/
theorem scanYear_cons (prev : Option Char) (c : Char) (tl : List Char) :
    scanYear prev (c :: tl) =
      if yearMatchAtPrev prev (c :: tl) 0 then some (yearValueAt (c :: tl) 0)
      else scanYear (some c) tl := by
  match tl with
  | [] => simp [scanYear, yearMatchAtPrev, boundaryAtHead]
  | [c2] => simp [scanYear, yearMatchAtPrev, boundaryAtHead]
  | [c2, c3] => simp [scanYear, yearMatchAtPrev, boundaryAtHead]
  | c2 :: c3 :: c4 :: rest =>
    simp only [scanYear, yearMatchAtPrev, yearValueAt, leftBoundary]
    simp [List.getD_cons_succ, rightBoundary, boundaryAtHead]

/-- The scan computes the value at the first matching position. -/
theorem scanYear_eq_find (cs : List Char) (prev : Option Char) :
    scanYear prev cs =
      ((List.range cs.length).find? (yearMatchAtPrev prev cs)).map (yearValueAt cs) := by
  induction cs generalizing prev with
  | nil => simp [scanYear]
  | cons c tl ih =>
    rw [scanYear_cons]
    rw [List.length_cons, List.range_succ_eq_map]
    by_cases h0 : yearMatchAtPrev prev (c :: tl) 0 = true
    · simp [h0]
    · rw [if_neg h0]
      rw [List.find?_cons_of_neg _ h0, List.find?_map]
      have hpred : (yearMatchAtPrev prev (c :: tl)) ∘ Nat.succ =
          yearMatchAtPrev (some c) tl := by
        funext i
        simp [Function.comp, yearMatchAtPrev_shift]
      rw [hpred, ih, Option.map_map]
      have hval : yearValueAt (c :: tl) ∘ Nat.succ = yearValueAt tl := by
        funext i
        simp [Function.comp, yearValueAt_shift]
      rw [hval]

theorem formatCreator_eq_amended (c : ZoteroCreator) :
    formatCreator c = amendedCreatorDisplay c := by
  unfold formatCreator amendedCreatorDisplay
  cases hn : jsTruthy c.name with
  | true => simp [hn]
  | false =>
    cases hf : jsTruthy c.firstName <;> cases hl : jsTruthy c.lastName <;>
      simp [hn, hf, hl, joinWith]

/-! ## Replacements leave a string without their pattern untouched -/

theorem occursIn_false_split (pat s : String) (h : occursIn pat s = false) :
    splitFirst pat.data s.data = none := by
  unfold occursIn at h
  rcases hsp : splitFirst pat.data s.data with _ | x
  · rfl
  · rw [hsp] at h
    simp at h

theorem replTagF_of_none (opn cls : List Char) (wrap : List Char → List Char)
    (fuel : Nat) (s : List Char) (h : splitFirst opn s = none) :
    replTagF opn cls wrap fuel s = s := by
  cases fuel <;> simp [replTagF, h]

theorem replTag_of_none (opn cls : List Char) (wrap : List Char → List Char)
    (s : List Char) (h : splitFirst opn s = none) : replTag opn cls wrap s = s :=
  replTagF_of_none opn cls wrap (s.length + 1) s h

theorem replAnchorF_of_none (fuel : Nat) (s : List Char)
    (h : splitFirst "<a href=\"".data s = none) : replAnchorF fuel s = s := by
  cases fuel <;> simp [replAnchorF, h]

theorem replAnchor_of_none (s : List Char) (h : splitFirst "<a href=\"".data s = none) :
    replAnchor s = s :=
  replAnchorF_of_none (s.length + 1) s h

theorem replBrF_of_none (fuel : Nat) (s : List Char)
    (h : splitFirst ('<' :: 'b' :: 'r' :: []) s = none) : replBrF fuel s = s := by
  cases fuel <;> simp [replBrF, h]

theorem replBr_of_none (s : List Char) (h : splitFirst ('<' :: 'b' :: 'r' :: []) s = none) :
    replBr s = s :=
  replBrF_of_none (s.length + 1) s h

theorem splitFirst_cons_none (pat : List Char) (c : Char) (cs : List Char)
    (h : splitFirst pat (c :: cs) = none) :
    leadsWith pat (c :: cs) = false ∧ splitFirst pat cs = none := by
  by_cases hl : leadsWith pat (c :: cs) = true
  · simp [splitFirst, hl] at h
  · refine ⟨by simpa using hl, ?_⟩
    rcases hsp : splitFirst pat cs with _ | ⟨a, b⟩
    · rfl
    · simp [splitFirst, hl, hsp] at h

theorem replPF_of_none (fuel : Nat) (s : List Char)
    (h1 : splitFirst ('<' :: '/' :: 'p' :: '>' :: []) s = none)
    (h2 : splitFirst ('<' :: 'p' :: '>' :: []) s = none) : replPF fuel s = s := by
  induction fuel generalizing s with
  | zero => rfl
  | succ f ih =>
    cases s with
    | nil => rfl
    | cons c cs =>
      obtain ⟨hA, hA2⟩ := splitFirst_cons_none _ _ _ h1
      obtain ⟨hB, hB2⟩ := splitFirst_cons_none _ _ _ h2
      simp [replPF, hA, hB, ih cs hA2 hB2]

theorem replP_of_none (s : List Char)
    (h1 : splitFirst ('<' :: '/' :: 'p' :: '>' :: []) s = none)
    (h2 : splitFirst ('<' :: 'p' :: '>' :: []) s = none) : replP s = s :=
  replPF_of_none (s.length + 1) s h1 h2

/-- A string containing none of the rewritten tag patterns passes through
the whole conversion unchanged up to the final trim. -/
theorem htmlToMarkdown_pass (s : String)
    (h : ∀ m ∈ tagMarkers, occursIn m s = false) :
    htmlToMarkdown s = jsTrimString s := by
  by_cases hs : s = ""
  · subst hs; rfl
  · have hi := occursIn_false_split _ s (h "<i>" (by simp [tagMarkers]))
    have hem := occursIn_false_split _ s (h "<em>" (by simp [tagMarkers]))
    have hb := occursIn_false_split _ s (h "<b>" (by simp [tagMarkers]))
    have hst := occursIn_false_split _ s (h "<strong>" (by simp [tagMarkers]))
    have hsup := occursIn_false_split _ s (h "<sup>" (by simp [tagMarkers]))
    have hsub := occursIn_false_split _ s (h "<sub>" (by simp [tagMarkers]))
    have ha := occursIn_false_split _ s (h "<a href=\"" (by simp [tagMarkers]))
    have hbr := occursIn_false_split _ s (h "<br" (by simp [tagMarkers]))
    have hp := occursIn_false_split _ s (h "<p>" (by simp [tagMarkers]))
    have hpc := occursIn_false_split _ s (h "</p>" (by simp [tagMarkers]))
    unfold htmlToMarkdown
    rw [if_neg hs]
    rw [replTag_of_none _ _ _ _ hi, replTag_of_none _ _ _ _ hem,
      replTag_of_none _ _ _ _ hb, replTag_of_none _ _ _ _ hst,
      replTag_of_none _ _ _ _ hsup, replTag_of_none _ _ _ _ hsub,
      replAnchor_of_none _ ha, replBr_of_none _ hbr, replP_of_none _ hpc hp]
    rfl

/-! ## Claims -/

/-- C3 (counterexample): the existence check of src/index.ts does throw
past its own boundary when both the primary property query and the
title-based fallback lookup fail — it does not return false in that
case. -/
theorem claim_c3_counterexample :
    IndexTs.checkIfInGraph .throws (fun _ => .throws) sampleItem = .error () := rfl

/-- C3 (amended): when the primary identity-property query resolves, its
result decides existence; when it throws, the check degrades to a lookup
of the page named by the record's title (or the synthesized placeholder),
but when that fallback lookup itself throws, the error propagates to the
caller instead of yielding false. -/
theorem claim_c3_amended :
    (∀ (item : ZoteroItem) (gp : String → IndexTs.PageOutcome) (l : List String),
       IndexTs.checkIfInGraph (.ok (some l)) gp item = .ok (decide (0 < l.length))) ∧
    (∀ (item : ZoteroItem) (gp : String → IndexTs.PageOutcome),
       IndexTs.checkIfInGraph (.ok none) gp item = .ok false) ∧
    (∀ (item : ZoteroItem) (gp : String → IndexTs.PageOutcome) (p : Option String),
       gp (fallbackPageName item) = .ok p →
       IndexTs.checkIfInGraph .throws gp item = .ok p.isSome) ∧
    (∀ (item : ZoteroItem) (gp : String → IndexTs.PageOutcome),
       gp (fallbackPageName item) = .throws →
       IndexTs.checkIfInGraph .throws gp item = .error ()) := by
  refine ⟨fun _ _ _ => rfl, fun _ _ => rfl, ?_, ?_⟩
  · intro item gp p h
    simp [IndexTs.checkIfInGraph, h]
  · intro item gp h
    simp [IndexTs.checkIfInGraph, h]

theorem claim_c3_witness :
    IndexTs.checkIfInGraph .throws
      (fun _ => IndexTs.PageOutcome.ok (some "Deglobalization")) sampleItem =
      .ok (some "Deglobalization").isSome :=
  claim_c3_amended.2.2.1 sampleItem
    (fun _ => IndexTs.PageOutcome.ok (some "Deglobalization")) (some "Deglobalization") rfl

/-- C5 (counterexample): the claim reads the year as the first maximal run
of 4 digits of the form 19dd/20dd anywhere in the string, but the source
regex requires word boundaries: in "A1999" the digits 1999 form such a
run, yet the code extracts no year because the letter A is a word
character adjacent to the run. -/
theorem claim_c5_counterexample :
    extractYear (some "A1999") = none ∧ yearByDigitRuns (some "A1999") = some 1999 := by
  decide

/-- C5 (amended): year extraction returns the value of the first run of 4
digits matching 19dd or 20dd that is delimited by word boundaries (not
adjacent to any letter, digit or underscore), and an absent value when
the input is absent or no such run exists; the given examples hold. -/
theorem claim_c5_amended :
    (∀ dateStr : Option String, extractYear dateStr = yearByWordBoundaries dateStr) ∧
    extractYear (some "Published 2021-05") = some 2021 ∧
    extractYear (some "n.d.") = none ∧
    extractYear none = none := by
  refine ⟨?_, by decide, by decide, rfl⟩
  intro dateStr
  cases dateStr with
  | none => rfl
  | some s =>
    by_cases hs : s = ""
    · subst hs; rfl
    · simp only [extractYear, yearByWordBoundaries, firstYearWith]
      rw [if_neg hs, scanYear_eq_find]
      have hpred : yearMatchAtPrev none s.data =
          yearMatchAt (fun c => !(isWordChar c)) s.data := by
        funext i
        exact yearMatchAtPrev_none s.data i
      rw [hpred]
      rfl

/-- C6 (counterexample): the claim maps a creator to firstName-space-
lastName unless a full name is all that is present, but the source gives
an unconditional priority to a provided full name: a creator carrying all
three fields displays as the full name, not as the name parts. -/
theorem claim_c6_counterexample :
    authorsDisplay (some [⟨"author", some "Ada", some "Lovelace", some "Bob"⟩]) ≠
      claimedAuthorsDisplay (some [⟨"author", some "Ada", some "Lovelace", some "Bob"⟩]) := by
  decide

/-- C6 (amended): the authors string filters creators to role "author",
maps each to its provided full name whenever one is present and otherwise
to the present firstName/lastName components joined by a single space,
and joins with a comma-space; an absent or empty sequence yields the
empty string, and the claim's example evaluates as stated. -/
theorem claim_c6_amended :
    (∀ cs : List ZoteroCreator,
       authorsDisplay (some cs) =
         joinWith ", " ((authorCreators cs).map amendedCreatorDisplay)) ∧
    authorsDisplay none = "" ∧
    authorsDisplay (some []) = "" ∧
    authorsDisplay (some [⟨"author", some "Ada", some "Lovelace", none⟩,
                          ⟨"editor", none, none, some "Bob"⟩]) = "Ada Lovelace" := by
  refine ⟨?_, rfl, rfl, by decide⟩
  intro cs
  unfold authorsDisplay
  have hfc : formatCreator = amendedCreatorDisplay := funext formatCreator_eq_amended
  rw [hfc]

/-- C7: the conversion rewrites the fixed set of inline tags — the given
bold/italic example converts as stated — and a string containing none of
the rewritten patterns passes through unchanged up to the final trim. -/
theorem claim_c7_markdown :
    htmlToMarkdown "<b>Risk</b> and <i>policy</i>" = "**Risk** and *policy*" ∧
    ∀ s : String, (∀ m ∈ tagMarkers, occursIn m s = false) →
      htmlToMarkdown s = jsTrimString s :=
  ⟨by decide, htmlToMarkdown_pass⟩

theorem claim_c7_witness :
    htmlToMarkdown "<u>unknown</u>" = jsTrimString "<u>unknown</u>" :=
  claim_c7_markdown.2 "<u>unknown</u>" (by decide)

/-- C8: a blank (empty or whitespace-only) query is rejected with a
warning before any network request is issued, and an empty result list
from the store yields a warning notice — a valid, non-error outcome. -/
theorem claim_c8_search :
    (∀ (q : String) (fetch : FetchOutcome), isBlankQuery q = true →
       searchZoteroItems fetch q = ⟨0, [.enterQuery], []⟩ ∧
       SearchNotice.kind .enterQuery = .warning) ∧
    (∀ q : String, isBlankQuery q = false →
       searchZoteroItems (.ok (some [])) q = ⟨1, [.noResults, .searching], []⟩ ∧
       SearchNotice.kind .noResults = .warning) := by
  constructor
  · intro q fetch h
    exact ⟨by simp [searchZoteroItems, h], rfl⟩
  · intro q h
    exact ⟨by simp [searchZoteroItems, h], rfl⟩

theorem claim_c8_witness :
    searchZoteroItems (.ok (some [])) "deglobalization" =
      ⟨1, [.noResults, .searching], []⟩ ∧
    SearchNotice.kind .noResults = .warning :=
  claim_c8_search.2 "deglobalization" (by decide)

/-- C10: the page created on import is named by the title (or the
placeholder containing the record id) with the fixed tag suffix appended,
while the title-based fallback of the existence check looks up the bare
name without the suffix, so for every record (whose two stored copies of
the id agree) the fallback lookup name differs from the created page
title and the fallback can never find the page this importer created for
that record. -/
theorem claim_c10_title_mismatch (item : ZoteroItem) (h : item.key = item.data.key) :
    fallbackPageName item ≠ createPageTitle item.data := by
  unfold fallbackPageName createPageTitle
  rw [h]
  intro heq
  have hl := congrArg String.length heq
  rw [String.length_append] at hl
  have h5 : (" #zot" : String).length = 5 := rfl
  rw [h5] at hl
  omega

theorem claim_c10_witness : fallbackPageName sampleItem ≠ createPageTitle sampleItem.data :=
  claim_c10_title_mismatch sampleItem rfl

/-! ## Lock lifecycle of the import coordinator -/

namespace LockUi

theorem runTwo_append (o1 o2 : ImportOracle) (it1 it2 : ZoteroItem)
    (l1 l2 : List Bool) (t : TwoState) :
    runTwo o1 o2 it1 it2 (l1 ++ l2) t =
      runTwo o1 o2 it1 it2 l2 (runTwo o1 o2 it1 it2 l1 t) :=
  List.foldl_append _ _ _ _

/-- The lock-set invariant holds after any number of segments of the
first invocation alone. -/
theorem runTrues_guardInv (o1 o2 : ImportOracle) (item : ZoteroItem) (a : Nat) :
    guardInv item.key (runTwo o1 o2 item item (List.replicate a true) initialTwo) := by
  induction a with
  | zero => exact ⟨rfl, Or.inl ⟨rfl, rfl⟩⟩
  | succ n ih =>
    rw [List.replicate_succ', runTwo_append]
    obtain ⟨hp2, hc⟩ := ih
    set t := runTwo o1 o2 item item (List.replicate n true) initialTwo with ht
    show guardInv item.key (stepTwo o1 o2 item item t true)
    rcases hc with ⟨h1, h2⟩ | ⟨h1, h2, h3, h4⟩ | ⟨h1, h2, h3⟩ | ⟨r, h1, h2, h3⟩
    · refine ⟨by simp [stepTwo, hp2], Or.inr (Or.inl ?_)⟩
      simp [stepTwo, importSeg, h1, h2, initialKB]
    · refine ⟨by simp [stepTwo, hp2], Or.inr (Or.inr (Or.inl ?_))⟩
      simp [stepTwo, importSeg, h1, h2, h3, h4, checkResult]
    · rcases h1 with h1 | h1 | h1
      · cases hpc : o1.pageCreated
        · refine ⟨by simp [stepTwo, hp2], Or.inr (Or.inr (Or.inr ⟨.failed, ?_⟩))⟩
          simp [stepTwo, importSeg, h1, h2, h3, hpc, releaseLock]
        · cases hab : hasAbstract item
          · refine ⟨by simp [stepTwo, hp2], Or.inr (Or.inr (Or.inl ?_))⟩
            simp [stepTwo, importSeg, h1, h2, h3, hpc, hab]
          · refine ⟨by simp [stepTwo, hp2], Or.inr (Or.inr (Or.inl ?_))⟩
            simp [stepTwo, importSeg, h1, h2, h3, hpc, hab]
      · cases hins : o1.insertOk
        · refine ⟨by simp [stepTwo, hp2], Or.inr (Or.inr (Or.inr ⟨.failed, ?_⟩))⟩
          simp [stepTwo, importSeg, h1, h2, h3, hins, releaseLock]
        · refine ⟨by simp [stepTwo, hp2], Or.inr (Or.inr (Or.inl ?_))⟩
          simp [stepTwo, importSeg, h1, h2, h3, hins]
      · refine ⟨by simp [stepTwo, hp2], Or.inr (Or.inr (Or.inr ⟨.success, ?_⟩))⟩
        cases hlnk : o1.linkOk <;>
          simp [stepTwo, importSeg, h1, h2, h3, hlnk, releaseLock]
    · refine ⟨by simp [stepTwo, hp2, h1], Or.inr (Or.inr (Or.inr ⟨r, ?_⟩))⟩
      simp [stepTwo, importSeg, h1, h2, h3]

end LockUi

/-- C1: if an import call for a record id starts while that id is already
in the lock set, it ends immediately as guarded — the shared state
changes only by the guard log line, no notice is shown and no
page-creation request is issued — and a schedule in which a second call
for the same id starts while the first is in flight ends with exactly one
page-creation request having been issued. -/
theorem claim_c1_lock_guard (o1 o2 : LockUi.ImportOracle) (item : ZoteroItem) (a : Nat)
    (H : item.key ∈ (LockUi.runTwo o1 o2 item item (List.replicate a true)
      LockUi.initialTwo).shared.importingItems) :
    (LockUi.stepTwo o1 o2 item item
        (LockUi.runTwo o1 o2 item item (List.replicate a true) LockUi.initialTwo)
        false).ph2 = .done .guarded ∧
    (LockUi.stepTwo o1 o2 item item
        (LockUi.runTwo o1 o2 item item (List.replicate a true) LockUi.initialTwo)
        false).ph1 =
      (LockUi.runTwo o1 o2 item item (List.replicate a true) LockUi.initialTwo).ph1 ∧
    (LockUi.stepTwo o1 o2 item item
        (LockUi.runTwo o1 o2 item item (List.replicate a true) LockUi.initialTwo)
        false).shared =
      { (LockUi.runTwo o1 o2 item item (List.replicate a true) LockUi.initialTwo).shared
          with log := .guard ::
            (LockUi.runTwo o1 o2 item item (List.replicate a true)
              LockUi.initialTwo).shared.log } ∧
    (LockUi.runTwo o1 o2 item item
        (List.replicate a true ++ [false, true, true, true, true, true])
        LockUi.initialTwo).ph2 = .done .guarded ∧
    (LockUi.runTwo o1 o2 item item
        (List.replicate a true ++ [false, true, true, true, true, true])
        LockUi.initialTwo).shared.createRequests = [item.key] := by
  obtain ⟨hp2, hc⟩ := LockUi.runTrues_guardInv o1 o2 item a
  rw [LockUi.runTwo_append]
  set t := LockUi.runTwo o1 o2 item item (List.replicate a true) LockUi.initialTwo with ht
  rcases hc with ⟨h1, h2⟩ | ⟨h1, h2, h3, h4⟩ | ⟨h1, h2, h3⟩ | ⟨r, h1, h2, h3⟩
  · rw [h2] at H
    simp [LockUi.initialKB] at H
  · have hcont : t.shared.importingItems.contains item.key = true := by
      rw [h2]; simp
    refine ⟨by simp [LockUi.stepTwo, LockUi.importSeg, hp2, hcont, H],
      by simp [LockUi.stepTwo, LockUi.importSeg, hp2, hcont, H],
      by simp [LockUi.stepTwo, LockUi.importSeg, hp2, hcont, H], ?_⟩
    cases hq : o1.queryOk <;> cases hpc : o1.pageCreated <;>
      cases hab : LockUi.hasAbstract item <;> cases hins : o1.insertOk <;>
      cases hlnk : o1.linkOk <;>
      simp [LockUi.runTwo, LockUi.stepTwo, LockUi.importSeg, LockUi.checkResult,
        LockUi.releaseLock, hp2, hcont, H, h1, h2, h3, h4, hq, hpc, hab, hins, hlnk]
  · have hcont : t.shared.importingItems.contains item.key = true := by
      rw [h2]; simp
    refine ⟨by simp [LockUi.stepTwo, LockUi.importSeg, hp2, hcont, H],
      by simp [LockUi.stepTwo, LockUi.importSeg, hp2, hcont, H],
      by simp [LockUi.stepTwo, LockUi.importSeg, hp2, hcont, H], ?_⟩
    rcases h1 with h1 | h1 | h1 <;>
      cases hpc : o1.pageCreated <;> cases hab : LockUi.hasAbstract item <;>
      cases hins : o1.insertOk <;> cases hlnk : o1.linkOk <;>
      simp [LockUi.runTwo, LockUi.stepTwo, LockUi.importSeg, LockUi.checkResult,
        LockUi.releaseLock, hp2, hcont, H, h1, h2, h3, hpc, hab, hins, hlnk]
  · rw [h2] at H
    simp at H

theorem claim_c1_witness :
    (LockUi.runTwo ⟨true, true, true, true⟩ ⟨true, true, true, true⟩ sampleItem
        sampleItem (List.replicate 1 true ++ [false, true, true, true, true, true])
        LockUi.initialTwo).ph2 = .done .guarded ∧
    (LockUi.runTwo ⟨true, true, true, true⟩ ⟨true, true, true, true⟩ sampleItem
        sampleItem (List.replicate 1 true ++ [false, true, true, true, true, true])
        LockUi.initialTwo).shared.createRequests = [sampleItem.key] := by
  have h := claim_c1_lock_guard ⟨true, true, true, true⟩ ⟨true, true, true, true⟩
    sampleItem 1 (by decide)
  exact ⟨h.2.2.2.1, h.2.2.2.2⟩

/-- C2: an import invocation that passes the guard (its record id was not
locked when it started) has removed its lock entry after running to
completion, on every path — skip, success, persistence failure and thrown
append errors alike. -/
theorem claim_c2_lock_release (o : LockUi.ImportOracle) (item : ZoteroItem)
    (s : LockUi.KBState) (h : item.key ∉ s.importingItems) :
    item.key ∉ (LockUi.importZoteroItem o item s).2.importingItems := by
  by_cases hpg : item.key ∈ s.pages <;>
    cases hq : o.queryOk <;> cases hpc : o.pageCreated <;>
      cases hab : LockUi.hasAbstract item <;> cases hins : o.insertOk <;>
      cases hlnk : o.linkOk <;>
      simp [LockUi.importZoteroItem, LockUi.importSeg, LockUi.checkResult,
        LockUi.releaseLock, hq, hpc, hab, hins, hlnk, hpg, h]

theorem claim_c2_witness :
    sampleItem.key ∉
      (LockUi.importZoteroItem ⟨true, true, true, true⟩ sampleItem
        LockUi.initialKB).2.importingItems :=
  claim_c2_lock_release ⟨true, true, true, true⟩ sampleItem LockUi.initialKB
    (by decide)

/-- C4: after a first import of a record completes with its page created,
a second import invocation for the same record re-runs the existence
check before any commit, ends as skipped with a single already-exists
warning, issues no further page-creation request (the run total stays at
exactly one) and leaves the knowledge-base state unchanged. -/
theorem claim_c4_idempotent (o1 o2 : LockUi.ImportOracle) (item : ZoteroItem)
    (h1 : o1.pageCreated = true) (h2 : o2.queryOk = true) :
    (LockUi.runTwo o1 o2 item item [true, true, true, true, true, false, false]
        LockUi.initialTwo).ph2 = .done .skipped ∧
    (LockUi.runTwo o1 o2 item item [true, true, true, true, true, false, false]
        LockUi.initialTwo).shared.notices =
      .alreadyExists ::
        (LockUi.runTwo o1 o2 item item [true, true, true, true, true]
          LockUi.initialTwo).shared.notices ∧
    (LockUi.runTwo o1 o2 item item [true, true, true, true, true, false, false]
        LockUi.initialTwo).shared.createRequests =
      (LockUi.runTwo o1 o2 item item [true, true, true, true, true]
        LockUi.initialTwo).shared.createRequests ∧
    (LockUi.runTwo o1 o2 item item [true, true, true, true, true]
        LockUi.initialTwo).shared.createRequests = [item.key] ∧
    (LockUi.runTwo o1 o2 item item [true, true, true, true, true, false, false]
        LockUi.initialTwo).shared.pages =
      (LockUi.runTwo o1 o2 item item [true, true, true, true, true]
        LockUi.initialTwo).shared.pages := by
  cases hq : o1.queryOk <;> cases hab : LockUi.hasAbstract item <;>
    cases hins : o1.insertOk <;> cases hlnk : o1.linkOk <;>
    simp [LockUi.runTwo, LockUi.stepTwo, LockUi.importSeg, LockUi.checkResult,
      LockUi.releaseLock, LockUi.initialTwo, LockUi.initialKB, h1, h2, hq, hab,
      hins, hlnk]

theorem claim_c4_witness :
    (LockUi.runTwo ⟨true, true, true, true⟩ ⟨true, false, false, false⟩ sampleItem
        sampleItem [true, true, true, true, true, false, false]
        LockUi.initialTwo).ph2 = .done .skipped ∧
    (LockUi.runTwo ⟨true, true, true, true⟩ ⟨true, false, false, false⟩ sampleItem
        sampleItem [true, true, true, true, true]
        LockUi.initialTwo).shared.createRequests = [sampleItem.key] := by
  have h := claim_c4_idempotent ⟨true, true, true, true⟩ ⟨true, false, false, false⟩
    sampleItem rfl rfl
  exact ⟨h.1, h.2.2.2.1⟩

/-- C9 (counterexample): when the page is created and the abstract append
then throws, the overall catch shows the user-facing failure notice and
no success notice is shown — contradicting the claim that the import is
still reported successful with the omission only logged — while the page
itself indeed remains. -/
theorem claim_c9_counterexample :
    LockUi.Notice.importFailed ∈
      (LockUi.importZoteroItem ⟨true, true, false, true⟩ sampleItem
        LockUi.initialKB).2.notices ∧
    LockUi.Notice.imported ∉
      (LockUi.importZoteroItem ⟨true, true, false, true⟩ sampleItem
        LockUi.initialKB).2.notices ∧
    LockUi.Notice.kind .importFailed = .error ∧
    (LockUi.importZoteroItem ⟨true, true, false, true⟩ sampleItem
      LockUi.initialKB).2.pages = [sampleItem.key] := by
  decide

/-- C9 (amended): when the page-creation request succeeds but the abstract
append throws, the page is not rolled back (it remains in the knowledge
base), but the import is reported as failed: the catch shows exactly the
user-facing failure notice after the importing notice, no success notice
is shown, and the lock is still released. -/
theorem claim_c9_amended (o : LockUi.ImportOracle) (item : ZoteroItem)
    (hab : LockUi.hasAbstract item = true) (hpc : o.pageCreated = true)
    (hins : o.insertOk = false) :
    (LockUi.importZoteroItem o item LockUi.initialKB).1 = .done .failed ∧
    (LockUi.importZoteroItem o item LockUi.initialKB).2.pages = [item.key] ∧
    (LockUi.importZoteroItem o item LockUi.initialKB).2.notices =
      [.importFailed, .importing] ∧
    (LockUi.importZoteroItem o item LockUi.initialKB).2.importingItems = [] := by
  cases hq : o.queryOk <;> cases hlnk : o.linkOk <;>
    simp [LockUi.importZoteroItem, LockUi.importSeg, LockUi.checkResult,
      LockUi.releaseLock, LockUi.initialKB, hab, hpc, hins, hq, hlnk]

theorem claim_c9_witness :
    (LockUi.importZoteroItem ⟨true, true, false, true⟩ sampleItem
        LockUi.initialKB).1 = .done .failed ∧
    (LockUi.importZoteroItem ⟨true, true, false, true⟩ sampleItem
        LockUi.initialKB).2.pages = [sampleItem.key] ∧
    (LockUi.importZoteroItem ⟨true, true, false, true⟩ sampleItem
        LockUi.initialKB).2.notices = [.importFailed, .importing] ∧
    (LockUi.importZoteroItem ⟨true, true, false, true⟩ sampleItem
        LockUi.initialKB).2.importingItems = [] :=
  claim_c9_amended ⟨true, true, false, true⟩ sampleItem (by decide) rfl rfl

end PocSearchImport
